import Mathlib

/-!
Verification development for the gradient-fisherman query agent.

The repository executes model-generated pandas expressions after an
AST-level security validation pass.  This file embeds, as executable Lean
definitions, the parts of the code the claims are about:

  * the Python expression syntax trees produced by parsing in eval mode,
    together with the AST validator of
    src/backend/agents/query_agent.py (`_ALLOWED_NODE_TYPES`,
    `_ALLOWED_NAMES`, `_FORBIDDEN_ATTRS`, `_ASTValidator`, `_validate_ast`);
  * the restricted evaluation namespaces built by `QueryAgent._execute`
    and by `_safe_eval_pandas` of src/backend/app/agents/query.py,
    over an explicit heap of DataFrame objects so that defensive copying
    is observable;
  * the result normalizer `QueryAgent._serialise`;
  * the orchestration logic of `QueryAgent.query` downstream of the
    model call, including the no-answer sentinel short-circuit and the
    error mapping `QueryAgent._err`;
  * the substring denylist guard of `_safe_eval_pandas`.

The host evaluation of a validated expression (the call to Python eval)
is abstracted as a parameter: the theorems quantify over its behaviour,
constrained only by a frame condition on the heap.
-/

namespace GradientFisherman

/-! ## Python expression syntax trees

Constructors mirror the node classes of the Python ast module that can
occur in an expression parsed in eval mode.  Expression contexts
(Load, Store, Del) are carried for shape fidelity; all three are members
of the allow-list in the source, so visiting them never rejects.
-/

inductive Ctx : Type where
  | load
  | store
  | del
deriving DecidableEq, Repr

/-- Literal constant values of an ast.Constant node.  Python floats are
modelled as rationals. -/
inductive PyConst : Type where
  | intL (i : Int)
  | floatL (q : ℚ)
  | strL (s : String)
  | boolL (b : Bool)
  | noneL
deriving DecidableEq, Repr

/-- Binary operator node classes. -/
inductive BinOpK : Type where
  | add | sub | mult | div | floorDiv | mod | pow
  | lShift | rShift | bitOr | bitXor | bitAnd | matMult
deriving DecidableEq, Repr

/-- Unary operator node classes. -/
inductive UnaryK : Type where
  | uSub | uAdd | notK | invert
deriving DecidableEq, Repr

/-- Comparison operator node classes. -/
inductive CmpK : Type where
  | eq | notEq | lt | ltE | gt | gtE | isK | isNotK | inK | notInK
deriving DecidableEq, Repr

/-- Boolean operator node classes (both allow-listed). -/
inductive BoolOpK : Type where
  | andK | orK
deriving DecidableEq, Repr

mutual

inductive PyExpr : Type where
  | constant (v : PyConst)
  | listE (elts : List PyExpr) (ctx : Ctx)
  | tupleE (elts : List PyExpr) (ctx : Ctx)
  | setE (elts : List PyExpr)
  | dictE (keys : List (Option PyExpr)) (values : List PyExpr)
  | name (id : String) (ctx : Ctx)
  | attribute (value : PyExpr) (attr : String) (ctx : Ctx)
  | binOp (left : PyExpr) (op : BinOpK) (right : PyExpr)
  | unaryOp (op : UnaryK) (operand : PyExpr)
  | boolOp (op : BoolOpK) (values : List PyExpr)
  | compare (left : PyExpr) (ops : List CmpK) (comparators : List PyExpr)
  | subscript (value : PyExpr) (slice : PyExpr) (ctx : Ctx)
  | sliceE (lower : Option PyExpr) (upper : Option PyExpr) (step : Option PyExpr)
  | call (func : PyExpr) (args : List PyExpr) (keywords : List (Option String × PyExpr))
  | ifExp (test : PyExpr) (body : PyExpr) (orelse : PyExpr)
  | listComp (elt : PyExpr) (generators : List PyComp)
  | setComp (elt : PyExpr) (generators : List PyComp)
  | dictComp (key : PyExpr) (value : PyExpr) (generators : List PyComp)
  | generatorExp (elt : PyExpr) (generators : List PyComp)
  | starred (value : PyExpr) (ctx : Ctx)
  | lambdaE (params : List String) (body : PyExpr)
  | namedExpr (target : PyExpr) (value : PyExpr)
  | awaitE (value : PyExpr)
  | yieldE (value : Option PyExpr)
  | joinedStr (values : List PyExpr)
  | formattedValue (value : PyExpr)

/-- An ast.comprehension node: target, iterated expression, filters. -/
inductive PyComp : Type where
  | mk (target : PyExpr) (iter : PyExpr) (ifs : List PyExpr) (isAsync : Bool)

end

/-- The Python class name of the node, as used in validator messages. -/
def nodeKind : PyExpr → String
  | .constant _ => "Constant"
  | .listE _ _ => "List"
  | .tupleE _ _ => "Tuple"
  | .setE _ => "Set"
  | .dictE _ _ => "Dict"
  | .name _ _ => "Name"
  | .attribute _ _ _ => "Attribute"
  | .binOp _ _ _ => "BinOp"
  | .unaryOp _ _ => "UnaryOp"
  | .boolOp _ _ => "BoolOp"
  | .compare _ _ _ => "Compare"
  | .subscript _ _ _ => "Subscript"
  | .sliceE _ _ _ => "Slice"
  | .call _ _ _ => "Call"
  | .ifExp _ _ _ => "IfExp"
  | .listComp _ _ => "ListComp"
  | .setComp _ _ => "SetComp"
  | .dictComp _ _ _ => "DictComp"
  | .generatorExp _ _ => "GeneratorExp"
  | .starred _ _ => "Starred"
  | .lambdaE _ _ => "Lambda"
  | .namedExpr _ _ => "NamedExpr"
  | .awaitE _ => "Await"
  | .yieldE _ => "Yield"
  | .joinedStr _ => "JoinedStr"
  | .formattedValue _ => "FormattedValue"

/-- The Python class name of a binary operator node. -/
def binOpKind : BinOpK → String
  | .add => "Add"
  | .sub => "Sub"
  | .mult => "Mult"
  | .div => "Div"
  | .floorDiv => "FloorDiv"
  | .mod => "Mod"
  | .pow => "Pow"
  | .lShift => "LShift"
  | .rShift => "RShift"
  | .bitOr => "BitOr"
  | .bitXor => "BitXor"
  | .bitAnd => "BitAnd"
  | .matMult => "MatMult"

/-- The Python class name of a unary operator node. -/
def unaryKind : UnaryK → String
  | .uSub => "USub"
  | .uAdd => "UAdd"
  | .notK => "Not"
  | .invert => "Invert"

/-- The Python class name of a comparison operator node. -/
def cmpKind : CmpK → String
  | .eq => "Eq"
  | .notEq => "NotEq"
  | .lt => "Lt"
  | .ltE => "LtE"
  | .gt => "Gt"
  | .gtE => "GtE"
  | .isK => "Is"
  | .isNotK => "IsNot"
  | .inK => "In"
  | .notInK => "NotIn"

/-- The Python class name of a boolean operator node. -/
def boolOpKind : BoolOpK → String
  | .andK => "And"
  | .orK => "Or"

/-! ## The allow-lists and the forbidden-attribute set

Transcribed from src/backend/agents/query_agent.py.  The node-type
allow-list is represented by the class names of its members.
-/

def _ALLOWED_NODE_TYPES : List String :=
  [ "Constant",
    "List", "Tuple", "Set", "Dict",
    "Name", "Attribute",
    "BinOp", "UnaryOp", "BoolOp", "Compare",
    "Add", "Sub", "Mult", "Div", "FloorDiv", "Mod", "Pow",
    "USub", "UAdd", "Not",
    "Eq", "NotEq", "Lt", "LtE", "Gt", "GtE",
    "And", "Or", "In", "NotIn",
    "Subscript", "Index", "Slice",
    "Call", "keyword",
    "Expr", "Expression",
    "ListComp", "SetComp", "DictComp",
    "comprehension", "IfExp",
    "Starred",
    "Load", "Store", "Del" ]

def _ALLOWED_NAMES : List String :=
  [ "df", "pd", "np",
    "True", "False", "None",
    "len", "range", "list", "dict", "set", "tuple",
    "str", "int", "float", "bool",
    "round", "abs", "min", "max", "sum", "sorted",
    "enumerate", "zip", "print" ]

def _FORBIDDEN_ATTRS : List String :=
  [ "__class__", "__bases__", "__subclasses__", "__mro__",
    "__globals__", "__locals__", "__builtins__", "__import__",
    "__reduce__", "__reduce_ex__", "__getattribute__",
    "__init__", "__new__", "__del__",
    "system", "popen", "subprocess", "exec", "eval",
    "compile", "open", "read", "write", "unlink", "remove",
    "globals", "locals", "vars", "dir" ]

/-! ## Validator error messages, as in the source f-strings. -/

def nodeErrMsg (kind : String) : String :=
  "Disallowed AST node: " ++ kind ++ ". Only pure pandas/numpy expressions are permitted."

def nameErrMsg (id : String) : String :=
  "Disallowed name '" ++ id ++ "'. Only 'df', 'pd', 'np', and standard builtins are allowed."

def attrErrMsg (attr : String) : String :=
  "Forbidden attribute '." ++ attr ++ "' — not permitted in data queries."

def callErrMsg (fid : String) : String :=
  "Disallowed call '" ++ fid ++ "()'. Only whitelisted functions are permitted."

/-! ## The validator walk

Embeds `_ASTValidator`.  The visitor raises on the first violation in
visit order: a node with a dedicated visit method performs its own check
before the generic walk over its children; the generic walk first checks
that the node class is allow-listed and only then visits the children in
field order.  Nodes of a non-allow-listed class therefore reject before
their children are inspected.  Operator nodes appear as children of
BinOp/UnaryOp/Compare and are themselves subject to the class check;
context nodes and keyword/comprehension wrappers are allow-listed, so
their class checks never fire and are elided.
-/

mutual

def validateExpr : PyExpr → Except String Unit
  | .constant _ => .ok ()
  | .listE elts _ => validateList elts
  | .tupleE elts _ => validateList elts
  | .setE elts => validateList elts
  | .dictE keys values =>
    match validateOptList keys with
    | .error m => .error m
    | .ok () => validateList values
  | .name id _ =>
    if _ALLOWED_NAMES.contains id then .ok () else .error (nameErrMsg id)
  | .attribute value attr _ =>
    if _FORBIDDEN_ATTRS.contains attr then .error (attrErrMsg attr)
    else validateExpr value
  | .binOp left op right =>
    match validateExpr left with
    | .error m => .error m
    | .ok () =>
      if _ALLOWED_NODE_TYPES.contains (binOpKind op) then validateExpr right
      else .error (nodeErrMsg (binOpKind op))
  | .unaryOp op operand =>
    if _ALLOWED_NODE_TYPES.contains (unaryKind op) then validateExpr operand
    else .error (nodeErrMsg (unaryKind op))
  | .boolOp _ values => validateList values
  | .compare left ops comparators =>
    match validateExpr left with
    | .error m => .error m
    | .ok () =>
      match ops.find? (fun o => !(_ALLOWED_NODE_TYPES.contains (cmpKind o))) with
      | some o => .error (nodeErrMsg (cmpKind o))
      | none => validateList comparators
  | .subscript value slice _ =>
    match validateExpr value with
    | .error m => .error m
    | .ok () => validateExpr slice
  | .sliceE lower upper step =>
    match validateOpt lower with
    | .error m => .error m
    | .ok () =>
      match validateOpt upper with
      | .error m => .error m
      | .ok () => validateOpt step
  | .call func args keywords =>
    match func with
    | .name fid _ =>
      if _ALLOWED_NAMES.contains fid then
        match validateList args with
        | .error m => .error m
        | .ok () => validateKeywords keywords
      else .error (callErrMsg fid)
    | _ =>
      match validateExpr func with
      | .error m => .error m
      | .ok () =>
        match validateList args with
        | .error m => .error m
        | .ok () => validateKeywords keywords
  | .ifExp test body orelse =>
    match validateExpr test with
    | .error m => .error m
    | .ok () =>
      match validateExpr body with
      | .error m => .error m
      | .ok () => validateExpr orelse
  | .listComp elt generators =>
    match validateExpr elt with
    | .error m => .error m
    | .ok () => validateComps generators
  | .setComp elt generators =>
    match validateExpr elt with
    | .error m => .error m
    | .ok () => validateComps generators
  | .dictComp key value generators =>
    match validateExpr key with
    | .error m => .error m
    | .ok () =>
      match validateExpr value with
      | .error m => .error m
      | .ok () => validateComps generators
  | .generatorExp _ _ => .error (nodeErrMsg "GeneratorExp")
  | .starred value _ => validateExpr value
  | .lambdaE _ _ => .error (nodeErrMsg "Lambda")
  | .namedExpr _ _ => .error (nodeErrMsg "NamedExpr")
  | .awaitE _ => .error (nodeErrMsg "Await")
  | .yieldE _ => .error (nodeErrMsg "Yield")
  | .joinedStr _ => .error (nodeErrMsg "JoinedStr")
  | .formattedValue _ => .error (nodeErrMsg "FormattedValue")

def validateList : List PyExpr → Except String Unit
  | [] => .ok ()
  | t :: ts =>
    match validateExpr t with
    | .error m => .error m
    | .ok () => validateList ts

def validateOpt : Option PyExpr → Except String Unit
  | none => .ok ()
  | some t => validateExpr t

def validateOptList : List (Option PyExpr) → Except String Unit
  | [] => .ok ()
  | o :: os =>
    match validateOpt o with
    | .error m => .error m
    | .ok () => validateOptList os

def validateKeywords : List (Option String × PyExpr) → Except String Unit
  | [] => .ok ()
  | (_, v) :: ks =>
    match validateExpr v with
    | .error m => .error m
    | .ok () => validateKeywords ks

def validateComp : PyComp → Except String Unit
  | .mk target iter ifs _ =>
    match validateExpr target with
    | .error m => .error m
    | .ok () =>
      match validateExpr iter with
      | .error m => .error m
      | .ok () => validateList ifs

def validateComps : List PyComp → Except String Unit
  | [] => .ok ()
  | c :: cs =>
    match validateComp c with
    | .error m => .error m
    | .ok () => validateComps cs

end

/-- Embeds `_validate_ast`.  The host parse in eval mode is represented
by its outcome: a syntax tree, or the error text of the SyntaxError.
The Expression wrapper node is allow-listed and its only child is the
body, so validating the wrapper is validating the body. -/
def validate_ast : Except String PyExpr → Except String Unit
  | .error exc => .error ("Invalid Python expression: " ++ exc)
  | .ok body => validateExpr body

/-- True exactly on rejection outcomes. -/
def isErr : Except String Unit → Bool
  | .error _ => true
  | .ok () => false

/-! ## Spec-side structural predicates

Written from the claims, to state what the validator guarantees: every
node class of the tree is in the allow-list, every bare name is in the
name allow-list, no attribute node carries a forbidden attribute name,
and the tree contains no statement-like expression node.
-/

mutual

/-- Every node of the tree, operator nodes included, has an allow-listed
node class. -/
def allowedKindsB : PyExpr → Bool
  | .constant _ => true
  | .listE elts _ => allowedKindsList elts
  | .tupleE elts _ => allowedKindsList elts
  | .setE elts => allowedKindsList elts
  | .dictE keys values => allowedKindsOptList keys && allowedKindsList values
  | .name _ _ => true
  | .attribute value _ _ => allowedKindsB value
  | .binOp left op right =>
    allowedKindsB left && _ALLOWED_NODE_TYPES.contains (binOpKind op) && allowedKindsB right
  | .unaryOp op operand =>
    _ALLOWED_NODE_TYPES.contains (unaryKind op) && allowedKindsB operand
  | .boolOp _ values => allowedKindsList values
  | .compare left ops comparators =>
    allowedKindsB left && ops.all (fun o => _ALLOWED_NODE_TYPES.contains (cmpKind o))
      && allowedKindsList comparators
  | .subscript value slice _ => allowedKindsB value && allowedKindsB slice
  | .sliceE lower upper step =>
    allowedKindsOpt lower && allowedKindsOpt upper && allowedKindsOpt step
  | .call func args keywords =>
    allowedKindsB func && allowedKindsList args && allowedKindsKeywords keywords
  | .ifExp test body orelse => allowedKindsB test && allowedKindsB body && allowedKindsB orelse
  | .listComp elt generators => allowedKindsB elt && allowedKindsComps generators
  | .setComp elt generators => allowedKindsB elt && allowedKindsComps generators
  | .dictComp key value generators =>
    allowedKindsB key && allowedKindsB value && allowedKindsComps generators
  | .generatorExp _ _ => false
  | .starred value _ => allowedKindsB value
  | .lambdaE _ _ => false
  | .namedExpr _ _ => false
  | .awaitE _ => false
  | .yieldE _ => false
  | .joinedStr _ => false
  | .formattedValue _ => false

def allowedKindsList : List PyExpr → Bool
  | [] => true
  | t :: ts => allowedKindsB t && allowedKindsList ts

def allowedKindsOpt : Option PyExpr → Bool
  | none => true
  | some t => allowedKindsB t

def allowedKindsOptList : List (Option PyExpr) → Bool
  | [] => true
  | o :: os => allowedKindsOpt o && allowedKindsOptList os

def allowedKindsKeywords : List (Option String × PyExpr) → Bool
  | [] => true
  | (_, v) :: ks => allowedKindsB v && allowedKindsKeywords ks

def allowedKindsComp : PyComp → Bool
  | .mk target iter ifs _ => allowedKindsB target && allowedKindsB iter && allowedKindsList ifs

def allowedKindsComps : List PyComp → Bool
  | [] => true
  | c :: cs => allowedKindsComp c && allowedKindsComps cs

end

mutual

/-- Every bare name reference in the tree is in the name allow-list. -/
def allowedNamesB : PyExpr → Bool
  | .constant _ => true
  | .listE elts _ => allowedNamesList elts
  | .tupleE elts _ => allowedNamesList elts
  | .setE elts => allowedNamesList elts
  | .dictE keys values => allowedNamesOptList keys && allowedNamesList values
  | .name id _ => _ALLOWED_NAMES.contains id
  | .attribute value _ _ => allowedNamesB value
  | .binOp left _ right => allowedNamesB left && allowedNamesB right
  | .unaryOp _ operand => allowedNamesB operand
  | .boolOp _ values => allowedNamesList values
  | .compare left _ comparators => allowedNamesB left && allowedNamesList comparators
  | .subscript value slice _ => allowedNamesB value && allowedNamesB slice
  | .sliceE lower upper step =>
    allowedNamesOpt lower && allowedNamesOpt upper && allowedNamesOpt step
  | .call func args keywords =>
    allowedNamesB func && allowedNamesList args && allowedNamesKeywords keywords
  | .ifExp test body orelse => allowedNamesB test && allowedNamesB body && allowedNamesB orelse
  | .listComp elt generators => allowedNamesB elt && allowedNamesComps generators
  | .setComp elt generators => allowedNamesB elt && allowedNamesComps generators
  | .dictComp key value generators =>
    allowedNamesB key && allowedNamesB value && allowedNamesComps generators
  | .generatorExp elt generators => allowedNamesB elt && allowedNamesComps generators
  | .starred value _ => allowedNamesB value
  | .lambdaE _ body => allowedNamesB body
  | .namedExpr target value => allowedNamesB target && allowedNamesB value
  | .awaitE value => allowedNamesB value
  | .yieldE value => allowedNamesOpt value
  | .joinedStr values => allowedNamesList values
  | .formattedValue value => allowedNamesB value

def allowedNamesList : List PyExpr → Bool
  | [] => true
  | t :: ts => allowedNamesB t && allowedNamesList ts

def allowedNamesOpt : Option PyExpr → Bool
  | none => true
  | some t => allowedNamesB t

def allowedNamesOptList : List (Option PyExpr) → Bool
  | [] => true
  | o :: os => allowedNamesOpt o && allowedNamesOptList os

def allowedNamesKeywords : List (Option String × PyExpr) → Bool
  | [] => true
  | (_, v) :: ks => allowedNamesB v && allowedNamesKeywords ks

def allowedNamesComp : PyComp → Bool
  | .mk target iter ifs _ => allowedNamesB target && allowedNamesB iter && allowedNamesList ifs

def allowedNamesComps : List PyComp → Bool
  | [] => true
  | c :: cs => allowedNamesComp c && allowedNamesComps cs

end

mutual

/-- Some attribute-access node of the tree has an attribute name in the
forbidden-attribute set. -/
def containsForbiddenAttr : PyExpr → Bool
  | .constant _ => false
  | .listE elts _ => containsFAList elts
  | .tupleE elts _ => containsFAList elts
  | .setE elts => containsFAList elts
  | .dictE keys values => containsFAOptList keys || containsFAList values
  | .name _ _ => false
  | .attribute value attr _ => _FORBIDDEN_ATTRS.contains attr || containsForbiddenAttr value
  | .binOp left _ right => containsForbiddenAttr left || containsForbiddenAttr right
  | .unaryOp _ operand => containsForbiddenAttr operand
  | .boolOp _ values => containsFAList values
  | .compare left _ comparators => containsForbiddenAttr left || containsFAList comparators
  | .subscript value slice _ => containsForbiddenAttr value || containsForbiddenAttr slice
  | .sliceE lower upper step =>
    containsFAOpt lower || containsFAOpt upper || containsFAOpt step
  | .call func args keywords =>
    containsForbiddenAttr func || containsFAList args || containsFAKeywords keywords
  | .ifExp test body orelse =>
    containsForbiddenAttr test || containsForbiddenAttr body || containsForbiddenAttr orelse
  | .listComp elt generators => containsForbiddenAttr elt || containsFAComps generators
  | .setComp elt generators => containsForbiddenAttr elt || containsFAComps generators
  | .dictComp key value generators =>
    containsForbiddenAttr key || containsForbiddenAttr value || containsFAComps generators
  | .generatorExp elt generators => containsForbiddenAttr elt || containsFAComps generators
  | .starred value _ => containsForbiddenAttr value
  | .lambdaE _ body => containsForbiddenAttr body
  | .namedExpr target value => containsForbiddenAttr target || containsForbiddenAttr value
  | .awaitE value => containsForbiddenAttr value
  | .yieldE value => containsFAOpt value
  | .joinedStr values => containsFAList values
  | .formattedValue value => containsForbiddenAttr value

def containsFAList : List PyExpr → Bool
  | [] => false
  | t :: ts => containsForbiddenAttr t || containsFAList ts

def containsFAOpt : Option PyExpr → Bool
  | none => false
  | some t => containsForbiddenAttr t

def containsFAOptList : List (Option PyExpr) → Bool
  | [] => false
  | o :: os => containsFAOpt o || containsFAOptList os

def containsFAKeywords : List (Option String × PyExpr) → Bool
  | [] => false
  | (_, v) :: ks => containsForbiddenAttr v || containsFAKeywords ks

def containsFAComp : PyComp → Bool
  | .mk target iter ifs _ =>
    containsForbiddenAttr target || containsForbiddenAttr iter || containsFAList ifs

def containsFAComps : List PyComp → Bool
  | [] => false
  | c :: cs => containsFAComp c || containsFAComps cs

end

mutual

/-- Some node of the tree is a statement-like expression construct that
parses in eval mode: a variable-capture (walrus) node or a lambda node. -/
def containsStmtExprNode : PyExpr → Bool
  | .constant _ => false
  | .listE elts _ => containsSEList elts
  | .tupleE elts _ => containsSEList elts
  | .setE elts => containsSEList elts
  | .dictE keys values => containsSEOptList keys || containsSEList values
  | .name _ _ => false
  | .attribute value _ _ => containsStmtExprNode value
  | .binOp left _ right => containsStmtExprNode left || containsStmtExprNode right
  | .unaryOp _ operand => containsStmtExprNode operand
  | .boolOp _ values => containsSEList values
  | .compare left _ comparators => containsStmtExprNode left || containsSEList comparators
  | .subscript value slice _ => containsStmtExprNode value || containsStmtExprNode slice
  | .sliceE lower upper step =>
    containsSEOpt lower || containsSEOpt upper || containsSEOpt step
  | .call func args keywords =>
    containsStmtExprNode func || containsSEList args || containsSEKeywords keywords
  | .ifExp test body orelse =>
    containsStmtExprNode test || containsStmtExprNode body || containsStmtExprNode orelse
  | .listComp elt generators => containsStmtExprNode elt || containsSEComps generators
  | .setComp elt generators => containsStmtExprNode elt || containsSEComps generators
  | .dictComp key value generators =>
    containsStmtExprNode key || containsStmtExprNode value || containsSEComps generators
  | .generatorExp elt generators => containsStmtExprNode elt || containsSEComps generators
  | .starred value _ => containsStmtExprNode value
  | .lambdaE _ _ => true
  | .namedExpr _ _ => true
  | .awaitE value => containsStmtExprNode value
  | .yieldE value => containsSEOpt value
  | .joinedStr values => containsSEList values
  | .formattedValue value => containsStmtExprNode value

def containsSEList : List PyExpr → Bool
  | [] => false
  | t :: ts => containsStmtExprNode t || containsSEList ts

def containsSEOpt : Option PyExpr → Bool
  | none => false
  | some t => containsStmtExprNode t

def containsSEOptList : List (Option PyExpr) → Bool
  | [] => false
  | o :: os => containsSEOpt o || containsSEOptList os

def containsSEKeywords : List (Option String × PyExpr) → Bool
  | [] => false
  | (_, v) :: ks => containsStmtExprNode v || containsSEKeywords ks

def containsSEComp : PyComp → Bool
  | .mk target iter ifs _ =>
    containsStmtExprNode target || containsStmtExprNode iter || containsSEList ifs

def containsSEComps : List PyComp → Bool
  | [] => false
  | c :: cs => containsSEComp c || containsSEComps cs

end

/-! ## Tabular data and the result normalizer

Scalar cells of a pandas object.  Floats are modelled as rationals; the
missing-value marker NaN and the Python None produced by replacing it
are distinct cells, exactly as in pandas before and after
`replace({np.nan: None})`.
-/

inductive Cell : Type where
  | nan
  | noneC
  | intC (i : Int)
  | floatC (q : ℚ)
  | strC (s : String)
  | boolC (b : Bool)
deriving DecidableEq, Repr

/-- A pandas DataFrame: ordered column names and rows of cells. -/
structure DataFrame : Type where
  cols : List String
  rows : List (List Cell)
deriving DecidableEq, Repr

/-- A pandas Series: an index and values, with the column names its
reset_index form uses (the index name, and str of the series name). -/
structure Series : Type where
  indexName : String
  valueName : String
  index : List Cell
  values : List Cell
deriving DecidableEq, Repr

/-- JSON-safe values crossing the API boundary after normalization. -/
inductive JVal : Type where
  | null
  | jnan
  | jint (i : Int)
  | jnum (q : ℚ)
  | jstr (s : String)
  | jbool (b : Bool)
  | jlist (xs : List JVal)
  | jrecords (rs : List (List (String × JVal)))

/-- Representation of a cell as the JSON value to_dict produces for it. -/
def cellJ : Cell → JVal
  | .nan => .jnan
  | .noneC => .null
  | .intC i => .jint i
  | .floatC q => .jnum q
  | .strC s => .jstr s
  | .boolC b => .jbool b

/-- One replacement step of `replace({np.nan: None})` on a cell. -/
def nanToNone : Cell → Cell
  | .nan => .noneC
  | c => c

/-- Embeds `replace({np.nan: None})` on a whole DataFrame. -/
def replaceNanDF (d : DataFrame) : DataFrame :=
  { d with rows := d.rows.map (fun r => r.map nanToNone) }

/-- Embeds `replace({np.nan: None})` on the values of a Series. -/
def replaceNanSeries (s : Series) : Series :=
  { s with values := s.values.map nanToNone }

/-- Embeds `Series.reset_index`: the index becomes the first column. -/
def resetIndex (s : Series) : DataFrame :=
  { cols := [s.indexName, s.valueName],
    rows := (s.index.zip s.values).map (fun p => [p.1, p.2]) }

/-- Embeds `to_dict(orient="records")`: one mapping per row, columns in
original order. -/
def toRecords (d : DataFrame) : List (List (String × JVal)) :=
  d.rows.map (fun r => d.cols.zip (r.map cellJ))

/-- Raw evaluation results, by the runtime type tests `_serialise`
performs: pandas DataFrame or Series, a numpy integer, floating or bool
scalar, a plain list or tuple, or anything else. -/
inductive RawResult : Type where
  | dataframe (d : DataFrame)
  | series (s : Series)
  | npInteger (i : Int)
  | npFloating (q : ℚ)
  | npBool (b : Bool)
  | pyList (xs : List Cell)
  | pyTuple (xs : List Cell)
  | other (c : Cell)

/-- Python round to 4 decimal digits, on the rational float model. -/
def round4 (q : ℚ) : ℚ := ((round (q * 10000) : ℤ) : ℚ) / 10000

/-- Embeds `QueryAgent._serialise`. -/
def _serialise : RawResult → JVal × String
  | .dataframe d => (.jrecords (toRecords (replaceNanDF d)), "table")
  | .series s => (.jrecords (toRecords (resetIndex (replaceNanSeries s))), "table")
  | .npInteger i => (.jint i, "scalar")
  | .npFloating q => (.jnum (round4 q), "scalar")
  | .npBool b => (.jbool b, "scalar")
  | .pyList xs => (.jlist (xs.map cellJ), "list")
  | .pyTuple xs => (.jlist (xs.map cellJ), "list")
  | .other c => (cellJ c, "scalar")

/-! Spec-side shapes for the normalizer, written from the specification
sentences: missing-value markers become explicit null in one step, and a
series becomes the tabular shape with its index materialized as an
explicit first column. -/

/-- A cell as JSON with the missing-value marker sent to explicit null. -/
def cellJNull : Cell → JVal
  | .nan => .null
  | c => cellJ c

/-- Spec shape of a normalized tabular result. -/
def specTableOfDF (d : DataFrame) : List (List (String × JVal)) :=
  d.rows.map (fun r => d.cols.zip (r.map cellJNull))

/-- Spec shape of a normalized indexed-sequence result: index column
first, then the value column, missing values as null. -/
def specTableOfSeries (s : Series) : List (List (String × JVal)) :=
  (s.index.zip s.values).map
    (fun p => [(s.indexName, cellJ p.1), (s.valueName, cellJNull p.2)])

/-! ## The substring denylist guard of `_safe_eval_pandas` -/

/-- The Python substring test `needle in hay` on character lists. -/
def hasSub (needle : List Char) : List Char → Bool
  | [] => needle.isEmpty
  | c :: rest => needle.isPrefixOf (c :: rest) || hasSub needle rest

/-- The blocked substring patterns of `_safe_eval_pandas`, in order. -/
def blockedPatterns : List String :=
  ["import ", "exec(", "eval(", "open(", "__", "os.", "sys.", "subprocess"]

/-- The sanitize loop of `_safe_eval_pandas`: raise on the first blocked
pattern occurring in the code text. -/
def checkBlocked (code : String) : Except String Unit :=
  match blockedPatterns.find? (fun b => hasSub b.toList code.toList) with
  | some b => .error ("Blocked operation: " ++ b)
  | none => .ok ()

/-! ## Heap of DataFrame objects and the restricted namespaces

Python object identity is modelled with an explicit heap: addresses of
DataFrame objects, an allocation counter, and contents.  The call
`df.copy()` allocates a fresh address holding the same contents.
-/

structure Heap : Type where
  next : Nat
  data : Nat → DataFrame

/-- Allocate a fresh DataFrame object. -/
def alloc (h : Heap) (d : DataFrame) : Heap × Nat :=
  (⟨h.next + 1, fun i => if i = h.next then d else h.data i⟩, h.next)

/-- Values an evaluation namespace can bind: a DataFrame reference, a
library module handle, a function object named by the host builtin it
denotes, a literal, or a nested string-keyed mapping. -/
inductive PyValue : Type where
  | dfRef (a : Nat)
  | module (m : String)
  | fn (f : String)
  | boolV (b : Bool)
  | noneV
  | dictV (entries : List (String × PyValue))

/-- Host builtins that expose code execution, file-system access,
process control, or namespace/introspection capability. -/
def hostCapabilityFns : List String :=
  ["exec", "eval", "compile", "open", "input", "__import__",
   "globals", "locals", "vars", "dir", "getattr", "setattr", "delattr",
   "breakpoint", "memoryview", "system", "popen", "fork", "spawn",
   "remove", "unlink", "rmdir", "kill"]

/-- Host modules that expose code-execution, file-system, process, or
introspection capability. -/
def hostCapabilityModules : List String :=
  ["os", "sys", "subprocess", "builtins", "importlib", "shutil",
   "socket", "ctypes", "io", "pathlib", "inspect", "gc"]

mutual

/-- No host code-execution, file-system, process, or introspection
capability is reachable from the value. -/
def valueCapabilitySafe : PyValue → Bool
  | .dfRef _ => true
  | .module m => !(hostCapabilityModules.contains m)
  | .fn f => !(hostCapabilityFns.contains f)
  | .boolV _ => true
  | .noneV => true
  | .dictV entries => entriesCapabilitySafe entries

def entriesCapabilitySafe : List (String × PyValue) → Bool
  | [] => true
  | (_, v) :: es => valueCapabilitySafe v && entriesCapabilitySafe es

end

/-- The `safe_builtins` mapping of `QueryAgent._execute`, in source
order. -/
def safe_builtins : List (String × PyValue) :=
  [("len", .fn "len"), ("range", .fn "range"), ("list", .fn "list"),
   ("dict", .fn "dict"), ("set", .fn "set"), ("tuple", .fn "tuple"),
   ("str", .fn "str"), ("int", .fn "int"), ("float", .fn "float"),
   ("bool", .fn "bool"), ("round", .fn "round"), ("abs", .fn "abs"),
   ("min", .fn "min"), ("max", .fn "max"), ("sum", .fn "sum"),
   ("sorted", .fn "sorted"), ("enumerate", .fn "enumerate"),
   ("zip", .fn "zip"), ("print", .fn "print"),
   ("True", .boolV true), ("False", .boolV false), ("None", .noneV)]

/-- The namespace `ns` built by `QueryAgent._execute`, with `df` bound
to the address of the defensive copy. -/
def executeNamespace (copyAddr : Nat) : List (String × PyValue) :=
  [("__builtins__", .dictV safe_builtins),
   ("df", .dfRef copyAddr),
   ("pd", .module "pandas"),
   ("np", .module "numpy")]

/-- The globals mapping of the eval call in `_safe_eval_pandas`: the
builtin registry entry replaced by an empty mapping. -/
def safeEvalGlobals : List (String × PyValue) :=
  [("__builtins__", .dictV [])]

/-- The locals namespace of `_safe_eval_pandas`, with `df` bound to the
address of the defensive copy. -/
def safeEvalLocals (copyAddr : Nat) : List (String × PyValue) :=
  [("df", .dfRef copyAddr), ("pd", .module "pandas"), ("np", .module "numpy")]

/-- DataFrame addresses reachable from a namespace. -/
def nsAddrs (ns : List (String × PyValue)) : List Nat :=
  ns.filterMap (fun kv => match kv.2 with | .dfRef a => some a | _ => none)

/-- Abstraction of the host eval call on a validated expression: given
the evaluation namespace and the heap, it produces a new heap and either
a raw result or the text of a raised exception. -/
def EvalFn : Type := List (String × PyValue) → Heap → Heap × Except String RawResult

/-- The host eval can read and write DataFrame objects reachable from
its namespace and allocate fresh ones, but cannot touch any other live
object: every address below the allocation counter and outside the
namespace keeps its contents. -/
def FramePreserving (f : EvalFn) : Prop :=
  ∀ ns h b, b ∉ nsAddrs ns → b < h.next → ((f ns h).1).data b = h.data b

/-- Embeds `QueryAgent._execute`: AST validation, then the restricted
namespace over a defensive copy, then evaluation and serialisation.
Raised validation or evaluation errors surface as error outcomes. -/
def _execute (evalFn : EvalFn) (parsed : Except String PyExpr) (h : Heap)
    (dfAddr : Nat) : Heap × Except String (JVal × String) :=
  match validate_ast parsed with
  | .error m => (h, .error m)
  | .ok () =>
    let (h1, c) := alloc h (h.data dfAddr)
    let (h2, r) := evalFn (executeNamespace c) h1
    match r with
    | .error m => (h2, .error m)
    | .ok raw => (h2, .ok (_serialise raw))

/-- Embeds `_safe_eval_pandas` of src/backend/app/agents/query.py: the
substring denylist, then evaluation in the restricted namespace over a
defensive copy. -/
def _safe_eval_pandas (evalFn : EvalFn) (code : String) (h : Heap)
    (dfAddr : Nat) : Heap × Except String RawResult :=
  match checkBlocked code with
  | .error m => (h, .error m)
  | .ok () =>
    let (h1, c) := alloc h (h.data dfAddr)
    evalFn (safeEvalGlobals ++ safeEvalLocals c) h1

/-! ## The orchestrator `QueryAgent.query` downstream of the model call -/

/-- The parsed model response fields `QueryAgent.query` reads.  A field
that is absent from the response JSON, or null in it, is the Python
None that `dict.get` returns, modelled as none. -/
structure Plan : Type where
  pandas_code : Option String := none
  answer_summary : Option String := none
  suggested_chart : Option String := none
  chart_x_col : Option String := none
  chart_y_col : Option String := none
deriving DecidableEq, Repr

/-- The response dictionary `QueryAgent.query` returns. -/
structure QueryResponse : Type where
  answer_summary : String
  pandas_code : String
  result_type : String
  result_data : Option JVal
  suggested_chart : String
  chart_x_col : Option String
  chart_y_col : Option String
  error : Option String

/-- The coercion `plan.get("pandas_code") or "None"`: the falsy values
None and the empty string become the sentinel text. -/
def orNoneStr : Option String → String
  | none => "None"
  | some s => if s = "" then "None" else s

/-- Embeds `QueryAgent._err`. -/
def _err (msg : String) (ctx : String) : QueryResponse :=
  { answer_summary := "Sorry, I couldn't answer that. " ++ msg,
    pandas_code := ctx,
    result_type := "scalar",
    result_data := none,
    suggested_chart := "none",
    chart_x_col := none,
    chart_y_col := none,
    error := some msg }

/-- Embeds `QueryAgent.query` from the successfully parsed model
response on: sentinel short-circuit, then `_execute` with every raised
exception mapped through `_err`, then response assembly.  The host
parse of the code text in eval mode enters through the parse
parameter. -/
def query (evalFn : EvalFn) (parse : String → Except String PyExpr)
    (plan : Plan) (h : Heap) (dfAddr : Nat) : QueryResponse × Heap :=
  let code := orNoneStr plan.pandas_code
  if code = "None" then
    ({ answer_summary := plan.answer_summary.getD "Cannot answer this question.",
       pandas_code := code,
       result_type := "scalar",
       result_data := none,
       suggested_chart := "none",
       chart_x_col := none,
       chart_y_col := none,
       error := none }, h)
  else
    match _execute evalFn (parse code) h dfAddr with
    | (h2, .error m) => (_err ("Execution error: " ++ m) code, h2)
    | (h2, .ok (payload, rtype)) =>
      ({ answer_summary := plan.answer_summary.getD "",
         pandas_code := code,
         result_type := rtype,
         result_data := some payload,
         suggested_chart := plan.suggested_chart.getD "none",
         chart_x_col := plan.chart_x_col,
         chart_y_col := plan.chart_y_col,
         error := none }, h2)

/-! ## Concrete sample inputs used by witnesses and counterexamples -/

/-- Syntax tree of the text `x.__class__`. -/
def exprXClass : PyExpr := .attribute (.name "x" .load) "__class__" .load

/-- Syntax tree of the text `(a+b).__class__`. -/
def exprParenAddClass : PyExpr :=
  .attribute (.binOp (.name "a" .load) .add (.name "b" .load)) "__class__" .load

/-- Syntax tree of the text `df['revenue'].sum()`. -/
def exprRevenueSum : PyExpr :=
  .call (.attribute (.subscript (.name "df" .load) (.constant (.strL "revenue")) .load)
    "sum" .load) [] []

/-- Syntax tree of the text `lambda x: x`. -/
def exprLambdaId : PyExpr := .lambdaE ["x"] (.name "x" .load)

/-- Syntax tree of the text `(x := 1)`. -/
def exprWalrusOne : PyExpr := .namedExpr (.name "x" .store) (.constant (.intL 1))

/-- The expression text `df.read()`, which contains none of the blocked
substring patterns of `_safe_eval_pandas`. -/
def bypassCode : String := "df.read()"

/-- Syntax tree of the text `df.read()`: a call through an attribute
access whose attribute name is in the forbidden-attribute set. -/
def exprDfRead : PyExpr := .call (.attribute (.name "df" .load) "read" .load) [] []

/-- A two-row sample dataset with a revenue column. -/
def sampleDF : DataFrame := ⟨["revenue"], [[.intC 3], [.intC 4]]⟩

/-- A heap holding the sample dataset at address 0. -/
def sampleHeap : Heap := ⟨1, fun _ => sampleDF⟩

/-- A concrete host-eval behaviour that overwrites every DataFrame
reachable from its namespace in place and returns a numpy integer:
the worst frame-preserving mutation an in-place pandas method can do. -/
def clobberEval : EvalFn := fun ns h =>
  (⟨h.next, fun i => if (nsAddrs ns).contains i then ⟨[], []⟩ else h.data i⟩,
   .ok (.npInteger 7))

/-- A parsed model response carrying the no-answer sentinel. -/
def planSentinel : Plan :=
  { pandas_code := some "None", answer_summary := some "Cannot tell from this data." }

/-- A parsed model response whose expression is the bare name `x`. -/
def planNameX : Plan :=
  { pandas_code := some "x", answer_summary := some "irrelevant" }

/-- Host parse behaviour mapping every text to the tree of `x`. -/
def parseNameX : String → Except String PyExpr := fun _ => .ok (.name "x" .load)

/-- A parsed model response with every field absent. -/
def planEmpty : Plan := {}

/-! ## Combined cleanliness of a tree: all four structural guarantees -/

def cleanOutcome (t : PyExpr) : Prop :=
  allowedKindsB t = true ∧ allowedNamesB t = true ∧
    containsForbiddenAttr t = false ∧ containsStmtExprNode t = false

def cleanOutcomeList (ts : List PyExpr) : Prop :=
  allowedKindsList ts = true ∧ allowedNamesList ts = true ∧
    containsFAList ts = false ∧ containsSEList ts = false

def cleanOutcomeOpt (o : Option PyExpr) : Prop :=
  allowedKindsOpt o = true ∧ allowedNamesOpt o = true ∧
    containsFAOpt o = false ∧ containsSEOpt o = false

def cleanOutcomeOptList (os : List (Option PyExpr)) : Prop :=
  allowedKindsOptList os = true ∧ allowedNamesOptList os = true ∧
    containsFAOptList os = false ∧ containsSEOptList os = false

def cleanOutcomeKeywords (ks : List (Option String × PyExpr)) : Prop :=
  allowedKindsKeywords ks = true ∧ allowedNamesKeywords ks = true ∧
    containsFAKeywords ks = false ∧ containsSEKeywords ks = false

def cleanOutcomeComp (c : PyComp) : Prop :=
  allowedKindsComp c = true ∧ allowedNamesComp c = true ∧
    containsFAComp c = false ∧ containsSEComp c = false

def cleanOutcomeComps (cs : List PyComp) : Prop :=
  allowedKindsComps cs = true ∧ allowedNamesComps cs = true ∧
    containsFAComps cs = false ∧ containsSEComps cs = false

/-! ## Soundness of the validator walk

A tree the walk accepts has only allow-listed node classes, only
allow-listed bare names, no forbidden attribute access anywhere, and no
statement-like expression node.  Proved by mutual structural induction
following the shape of the walk.
-/

mutual

theorem vOkExpr : (t : PyExpr) → validateExpr t = .ok () → cleanOutcome t
  | .constant v, _ => by
    simp [cleanOutcome, allowedKindsB, allowedNamesB, containsForbiddenAttr,
      containsStmtExprNode]
  | .listE elts c, h => by
    have hl := vOkList elts (by simpa only [validateExpr] using h)
    obtain ⟨k1, n1, f1, s1⟩ := hl
    simp [cleanOutcome, allowedKindsB, allowedNamesB, containsForbiddenAttr,
      containsStmtExprNode, k1, n1, f1, s1]
  | .tupleE elts c, h => by
    have hl := vOkList elts (by simpa only [validateExpr] using h)
    obtain ⟨k1, n1, f1, s1⟩ := hl
    simp [cleanOutcome, allowedKindsB, allowedNamesB, containsForbiddenAttr,
      containsStmtExprNode, k1, n1, f1, s1]
  | .setE elts, h => by
    have hl := vOkList elts (by simpa only [validateExpr] using h)
    obtain ⟨k1, n1, f1, s1⟩ := hl
    simp [cleanOutcome, allowedKindsB, allowedNamesB, containsForbiddenAttr,
      containsStmtExprNode, k1, n1, f1, s1]
  | .dictE keys values, h => by
    simp only [validateExpr] at h
    split at h
    · simp at h
    next heq =>
      obtain ⟨k1, n1, f1, s1⟩ := vOkOptList keys heq
      obtain ⟨k2, n2, f2, s2⟩ := vOkList values h
      simp [cleanOutcome, allowedKindsB, allowedNamesB, containsForbiddenAttr,
        containsStmtExprNode, k1, n1, f1, s1, k2, n2, f2, s2]
  | .name id c, h => by
    simp only [validateExpr] at h
    by_cases hc : id ∈ _ALLOWED_NAMES
    · simp [cleanOutcome, allowedKindsB, allowedNamesB, containsForbiddenAttr,
        containsStmtExprNode, hc]
    · simp [hc] at h
  | .attribute value attr c, h => by
    simp only [validateExpr] at h
    by_cases ha : attr ∈ _FORBIDDEN_ATTRS
    · simp [ha] at h
    · simp [ha] at h
      obtain ⟨k1, n1, f1, s1⟩ := vOkExpr value h
      simp [cleanOutcome, allowedKindsB, allowedNamesB, containsForbiddenAttr,
        containsStmtExprNode, k1, n1, f1, s1, ha]
  | .binOp left op right, h => by
    simp only [validateExpr] at h
    split at h
    · simp at h
    next heql =>
      by_cases hop : binOpKind op ∈ _ALLOWED_NODE_TYPES
      · simp [hop] at h
        obtain ⟨k1, n1, f1, s1⟩ := vOkExpr left heql
        obtain ⟨k2, n2, f2, s2⟩ := vOkExpr right h
        simp [cleanOutcome, allowedKindsB, allowedNamesB, containsForbiddenAttr,
          containsStmtExprNode, k1, n1, f1, s1, k2, n2, f2, s2, hop]
      · simp [hop] at h
  | .unaryOp op operand, h => by
    simp only [validateExpr] at h
    by_cases hop : unaryKind op ∈ _ALLOWED_NODE_TYPES
    · simp [hop] at h
      obtain ⟨k1, n1, f1, s1⟩ := vOkExpr operand h
      simp [cleanOutcome, allowedKindsB, allowedNamesB, containsForbiddenAttr,
        containsStmtExprNode, k1, n1, f1, s1, hop]
    · simp [hop] at h
  | .boolOp op values, h => by
    have hl := vOkList values (by simpa only [validateExpr] using h)
    obtain ⟨k1, n1, f1, s1⟩ := hl
    simp [cleanOutcome, allowedKindsB, allowedNamesB, containsForbiddenAttr,
      containsStmtExprNode, k1, n1, f1, s1]
  | .compare left ops comparators, h => by
    simp only [validateExpr] at h
    split at h
    · simp at h
    next heql =>
      split at h
      · simp at h
      next heqf =>
        have hall : ∀ o ∈ ops, cmpKind o ∈ _ALLOWED_NODE_TYPES := by
          intro x hx
          have := List.find?_eq_none.mp heqf x hx
          simpa using this
        obtain ⟨k1, n1, f1, s1⟩ := vOkExpr left heql
        obtain ⟨k2, n2, f2, s2⟩ := vOkList comparators h
        simp [cleanOutcome, allowedKindsB, allowedNamesB, containsForbiddenAttr,
          containsStmtExprNode, k1, n1, f1, s1, k2, n2, f2, s2]
        exact hall
  | .subscript value slice c, h => by
    simp only [validateExpr] at h
    split at h
    · simp at h
    next heqv =>
      obtain ⟨k1, n1, f1, s1⟩ := vOkExpr value heqv
      obtain ⟨k2, n2, f2, s2⟩ := vOkExpr slice h
      simp [cleanOutcome, allowedKindsB, allowedNamesB, containsForbiddenAttr,
        containsStmtExprNode, k1, n1, f1, s1, k2, n2, f2, s2]
  | .sliceE lower upper step, h => by
    simp only [validateExpr] at h
    split at h
    · simp at h
    next heq1 =>
      split at h
      · simp at h
      next heq2 =>
        obtain ⟨k1, n1, f1, s1⟩ := vOkOpt lower heq1
        obtain ⟨k2, n2, f2, s2⟩ := vOkOpt upper heq2
        obtain ⟨k3, n3, f3, s3⟩ := vOkOpt step h
        simp [cleanOutcome, allowedKindsB, allowedNamesB, containsForbiddenAttr,
          containsStmtExprNode, k1, n1, f1, s1, k2, n2, f2, s2, k3, n3, f3, s3]
  | .call func args keywords, h => by
    simp only [validateExpr] at h
    split at h
    next fid c =>
      by_cases hfid : fid ∈ _ALLOWED_NAMES
      swap
      · simp [hfid] at h
      · simp [hfid] at h
        split at h
        · simp at h
        next heqa =>
          obtain ⟨k1, n1, f1, s1⟩ := vOkList args heqa
          obtain ⟨k2, n2, f2, s2⟩ := vOkKeywords keywords h
          simp [cleanOutcome, allowedKindsB, allowedNamesB, containsForbiddenAttr,
            containsStmtExprNode, k1, n1, f1, s1, k2, n2, f2, s2, hfid]
    next hnotname =>
      split at h
      · simp at h
      next heqf =>
        split at h
        · simp at h
        next heqa =>
          obtain ⟨k1, n1, f1, s1⟩ := vOkExpr func heqf
          obtain ⟨k2, n2, f2, s2⟩ := vOkList args heqa
          obtain ⟨k3, n3, f3, s3⟩ := vOkKeywords keywords h
          simp [cleanOutcome, allowedKindsB, allowedNamesB, containsForbiddenAttr,
            containsStmtExprNode, k1, n1, f1, s1, k2, n2, f2, s2, k3, n3, f3, s3]
  | .ifExp test body orelse, h => by
    simp only [validateExpr] at h
    split at h
    · simp at h
    next heq1 =>
      split at h
      · simp at h
      next heq2 =>
        obtain ⟨k1, n1, f1, s1⟩ := vOkExpr test heq1
        obtain ⟨k2, n2, f2, s2⟩ := vOkExpr body heq2
        obtain ⟨k3, n3, f3, s3⟩ := vOkExpr orelse h
        simp [cleanOutcome, allowedKindsB, allowedNamesB, containsForbiddenAttr,
          containsStmtExprNode, k1, n1, f1, s1, k2, n2, f2, s2, k3, n3, f3, s3]
  | .listComp elt generators, h => by
    simp only [validateExpr] at h
    split at h
    · simp at h
    next heq =>
      obtain ⟨k1, n1, f1, s1⟩ := vOkExpr elt heq
      obtain ⟨k2, n2, f2, s2⟩ := vOkComps generators h
      simp [cleanOutcome, allowedKindsB, allowedNamesB, containsForbiddenAttr,
        containsStmtExprNode, k1, n1, f1, s1, k2, n2, f2, s2]
  | .setComp elt generators, h => by
    simp only [validateExpr] at h
    split at h
    · simp at h
    next heq =>
      obtain ⟨k1, n1, f1, s1⟩ := vOkExpr elt heq
      obtain ⟨k2, n2, f2, s2⟩ := vOkComps generators h
      simp [cleanOutcome, allowedKindsB, allowedNamesB, containsForbiddenAttr,
        containsStmtExprNode, k1, n1, f1, s1, k2, n2, f2, s2]
  | .dictComp key value generators, h => by
    simp only [validateExpr] at h
    split at h
    · simp at h
    next heq1 =>
      split at h
      · simp at h
      next heq2 =>
        obtain ⟨k1, n1, f1, s1⟩ := vOkExpr key heq1
        obtain ⟨k2, n2, f2, s2⟩ := vOkExpr value heq2
        obtain ⟨k3, n3, f3, s3⟩ := vOkComps generators h
        simp [cleanOutcome, allowedKindsB, allowedNamesB, containsForbiddenAttr,
          containsStmtExprNode, k1, n1, f1, s1, k2, n2, f2, s2, k3, n3, f3, s3]
  | .generatorExp elt generators, h => by simp [validateExpr] at h
  | .starred value c, h => by
    have hv := vOkExpr value (by simpa only [validateExpr] using h)
    obtain ⟨k1, n1, f1, s1⟩ := hv
    simp [cleanOutcome, allowedKindsB, allowedNamesB, containsForbiddenAttr,
      containsStmtExprNode, k1, n1, f1, s1]
  | .lambdaE params body, h => by simp [validateExpr] at h
  | .namedExpr target value, h => by simp [validateExpr] at h
  | .awaitE value, h => by simp [validateExpr] at h
  | .yieldE value, h => by simp [validateExpr] at h
  | .joinedStr values, h => by simp [validateExpr] at h
  | .formattedValue value, h => by simp [validateExpr] at h

theorem vOkList : (ts : List PyExpr) → validateList ts = .ok () → cleanOutcomeList ts
  | [], _ => by
    simp [cleanOutcomeList, allowedKindsList, allowedNamesList, containsFAList,
      containsSEList]
  | t :: ts, h => by
    simp only [validateList] at h
    split at h
    · simp at h
    next heq =>
      obtain ⟨k1, n1, f1, s1⟩ := vOkExpr t heq
      obtain ⟨k2, n2, f2, s2⟩ := vOkList ts h
      simp [cleanOutcomeList, allowedKindsList, allowedNamesList, containsFAList,
        containsSEList, k1, n1, f1, s1, k2, n2, f2, s2]

theorem vOkOpt : (o : Option PyExpr) → validateOpt o = .ok () → cleanOutcomeOpt o
  | none, _ => by
    simp [cleanOutcomeOpt, allowedKindsOpt, allowedNamesOpt, containsFAOpt,
      containsSEOpt]
  | some t, h => by
    obtain ⟨k1, n1, f1, s1⟩ := vOkExpr t (by simpa only [validateOpt] using h)
    simp [cleanOutcomeOpt, allowedKindsOpt, allowedNamesOpt, containsFAOpt,
      containsSEOpt, k1, n1, f1, s1]

theorem vOkOptList : (os : List (Option PyExpr)) → validateOptList os = .ok () →
    cleanOutcomeOptList os
  | [], _ => by
    simp [cleanOutcomeOptList, allowedKindsOptList, allowedNamesOptList,
      containsFAOptList, containsSEOptList]
  | o :: os, h => by
    simp only [validateOptList] at h
    split at h
    · simp at h
    next heq =>
      obtain ⟨k1, n1, f1, s1⟩ := vOkOpt o heq
      obtain ⟨k2, n2, f2, s2⟩ := vOkOptList os h
      simp [cleanOutcomeOptList, allowedKindsOptList, allowedNamesOptList,
        containsFAOptList, containsSEOptList, k1, n1, f1, s1, k2, n2, f2, s2]

theorem vOkKeywords : (ks : List (Option String × PyExpr)) → validateKeywords ks = .ok () →
    cleanOutcomeKeywords ks
  | [], _ => by
    simp [cleanOutcomeKeywords, allowedKindsKeywords, allowedNamesKeywords,
      containsFAKeywords, containsSEKeywords]
  | (a, v) :: ks, h => by
    simp only [validateKeywords] at h
    split at h
    · simp at h
    next heq =>
      obtain ⟨k1, n1, f1, s1⟩ := vOkExpr v heq
      obtain ⟨k2, n2, f2, s2⟩ := vOkKeywords ks h
      simp [cleanOutcomeKeywords, allowedKindsKeywords, allowedNamesKeywords,
        containsFAKeywords, containsSEKeywords, k1, n1, f1, s1, k2, n2, f2, s2]

theorem vOkComp : (c : PyComp) → validateComp c = .ok () → cleanOutcomeComp c
  | .mk target iter ifs isAsync, h => by
    simp only [validateComp] at h
    split at h
    · simp at h
    next heq1 =>
      split at h
      · simp at h
      next heq2 =>
        obtain ⟨k1, n1, f1, s1⟩ := vOkExpr target heq1
        obtain ⟨k2, n2, f2, s2⟩ := vOkExpr iter heq2
        obtain ⟨k3, n3, f3, s3⟩ := vOkList ifs h
        simp [cleanOutcomeComp, allowedKindsComp, allowedNamesComp, containsFAComp,
          containsSEComp, k1, n1, f1, s1, k2, n2, f2, s2, k3, n3, f3, s3]

theorem vOkComps : (cs : List PyComp) → validateComps cs = .ok () → cleanOutcomeComps cs
  | [], _ => by
    simp [cleanOutcomeComps, allowedKindsComps, allowedNamesComps, containsFAComps,
      containsSEComps]
  | c :: cs, h => by
    simp only [validateComps] at h
    split at h
    · simp at h
    next heq =>
      obtain ⟨k1, n1, f1, s1⟩ := vOkComp c heq
      obtain ⟨k2, n2, f2, s2⟩ := vOkComps cs h
      simp [cleanOutcomeComps, allowedKindsComps, allowedNamesComps, containsFAComps,
        containsSEComps, k1, n1, f1, s1, k2, n2, f2, s2]

end

/-! ## The claims about the validator -/

/-- C1: for every expression whose parsed syntax tree contains an
attribute-access node with an attribute name in the forbidden-attribute
set, validation rejects, regardless of the receiver expression. -/
theorem C1_forbidden_attribute_always_rejected :
    ∀ t : PyExpr, containsForbiddenAttr t = true →
      isErr (validate_ast (.ok t)) = true := by
  intro t hfa
  cases he : validateExpr t with
  | error m => simp [validate_ast, he, isErr]
  | ok u =>
    cases u
    have hclean := (vOkExpr t he).2.2.1
    rw [hclean] at hfa
    cases hfa

/-- Witness for C1: the tree of the text `(a+b).__class__` contains the
forbidden attribute name and is rejected. -/
theorem C1_forbidden_attribute_always_rejected_witness :
    containsForbiddenAttr exprParenAddClass = true ∧
      isErr (validate_ast (.ok exprParenAddClass)) = true :=
  ⟨rfl, C1_forbidden_attribute_always_rejected exprParenAddClass rfl⟩

/-- C2: every tree the validator accepts has only allow-listed node
classes and only allow-listed bare names. -/
theorem C2_accepted_trees_allowlisted :
    ∀ t : PyExpr, validate_ast (.ok t) = .ok () →
      allowedKindsB t = true ∧ allowedNamesB t = true := by
  intro t h
  have hc := vOkExpr t (by simpa [validate_ast] using h)
  exact ⟨hc.1, hc.2.1⟩

/-- Witness for C2: the accepted tree of `df['revenue'].sum()`. -/
theorem C2_accepted_trees_allowlisted_witness :
    validate_ast (.ok exprRevenueSum) = .ok () ∧
      (allowedKindsB exprRevenueSum = true ∧ allowedNamesB exprRevenueSum = true) :=
  ⟨rfl, C2_accepted_trees_allowlisted exprRevenueSum rfl⟩

/-- C5: input that fails the expression-mode parse is rejected as
invalid syntax, and statement-like constructs that do parse in
expression mode (the walrus node, the lambda node) are rejected as
disallowed node kinds wherever they occur in the tree. -/
theorem C5_statement_constructs_rejected :
    (∀ exc : String,
      validate_ast (.error exc) = .error ("Invalid Python expression: " ++ exc)) ∧
    (∀ t : PyExpr, containsStmtExprNode t = true →
      isErr (validate_ast (.ok t)) = true) := by
  constructor
  · intro exc; rfl
  · intro t hse
    cases he : validateExpr t with
    | error m => simp [validate_ast, he, isErr]
    | ok u =>
      cases u
      have hclean := (vOkExpr t he).2.2.2
      rw [hclean] at hse
      cases hse

/-- Witness for C5: a parse failure is rejected with the invalid-syntax
reason, and the trees of `lambda x: x` and `(x := 1)` are rejected. -/
theorem C5_statement_constructs_rejected_witness :
    validate_ast (.error "invalid syntax") =
        .error ("Invalid Python expression: " ++ "invalid syntax") ∧
      containsStmtExprNode exprLambdaId = true ∧
      isErr (validate_ast (.ok exprLambdaId)) = true ∧
      containsStmtExprNode exprWalrusOne = true ∧
      isErr (validate_ast (.ok exprWalrusOne)) = true :=
  ⟨C5_statement_constructs_rejected.1 "invalid syntax", rfl,
    C5_statement_constructs_rejected.2 exprLambdaId rfl, rfl,
    C5_statement_constructs_rejected.2 exprWalrusOne rfl⟩

/-- C7: the substring denylist guard and the structural validator are
not equivalent, and the substring guard is strictly weaker: the text
`df.read()` (tree `exprDfRead`) contains none of the blocked substring
patterns, so `_safe_eval_pandas` would evaluate it, while it reaches a
forbidden attribute access that the structural validator rejects. -/
theorem C7_substring_guard_strictly_weaker :
    checkBlocked bypassCode = .ok () ∧
      containsForbiddenAttr exprDfRead = true ∧
      isErr (validate_ast (.ok exprDfRead)) = true :=
  ⟨rfl, rfl, rfl⟩

/-! ## The claims about the restricted evaluator -/

/-- C3: the namespace `QueryAgent._execute` evaluates in binds exactly
the builtin-registry replacement, the dataset copy and the two library
handles; the builtin replacement is exactly the enumerated safe
functions and literals; and no entry reaches a code-execution,
file-system, process or introspection capability of the host runtime.
The namespace of `_safe_eval_pandas` satisfies the same property with
an empty builtin replacement. -/
theorem C3_namespace_exact_and_capability_free :
    ∀ c : Nat,
      (executeNamespace c).map Prod.fst = ["__builtins__", "df", "pd", "np"] ∧
      (executeNamespace c).lookup "__builtins__" = some (.dictV safe_builtins) ∧
      safe_builtins.map Prod.fst =
        ["len", "range", "list", "dict", "set", "tuple", "str", "int", "float",
          "bool", "round", "abs", "min", "max", "sum", "sorted", "enumerate",
          "zip", "print", "True", "False", "None"] ∧
      entriesCapabilitySafe (executeNamespace c) = true ∧
      safeEvalGlobals.lookup "__builtins__" = some (.dictV []) ∧
      (safeEvalLocals c).map Prod.fst = ["df", "pd", "np"] ∧
      entriesCapabilitySafe (safeEvalGlobals ++ safeEvalLocals c) = true := by
  intro c
  exact ⟨rfl, rfl, rfl, rfl, rfl, rfl, rfl⟩

/-- Any frame-preserving host evaluation keeps every live DataFrame
outside its namespace intact; trivial restatement kept for reuse. -/
theorem evalFrame (evalFn : EvalFn) (hf : FramePreserving evalFn)
    (ns : List (String × PyValue)) (h : Heap) (a : Nat)
    (hmem : a ∉ nsAddrs ns) (hlt : a < h.next) :
    ((evalFn ns h).1).data a = h.data a :=
  hf ns h a hmem hlt

/-- The concrete clobbering evaluation behaviour is frame preserving. -/
theorem clobberEval_frame : FramePreserving clobberEval := by
  intro ns h b hb hlt
  simp [clobberEval, hb]

/-- C4: evaluation leaves the originating dataset unchanged, because
both `QueryAgent._execute` and `_safe_eval_pandas` evaluate against a
defensive copy at a fresh address: for any frame-preserving host
evaluation behaviour, the contents at the caller's dataset address are
the same before and after. -/
theorem C4_dataset_unchanged_by_execution :
    ∀ (evalFn : EvalFn) (parsed : Except String PyExpr) (code : String)
      (h : Heap) (a : Nat),
      FramePreserving evalFn → a < h.next →
      (_execute evalFn parsed h a).1.data a = h.data a ∧
        (_safe_eval_pandas evalFn code h a).1.data a = h.data a := by
  intro evalFn parsed code h a hf ha
  have hane : a ≠ h.next := Nat.ne_of_lt ha
  constructor
  · unfold _execute
    cases hv : validate_ast parsed with
    | error m => rfl
    | ok u =>
      cases u
      simp only [alloc]
      rcases he : evalFn (executeNamespace h.next)
          ⟨h.next + 1, fun i => if i = h.next then h.data a else h.data i⟩ with ⟨h2, r⟩
      have hfr := hf (executeNamespace h.next)
        ⟨h.next + 1, fun i => if i = h.next then h.data a else h.data i⟩ a
        (by simp [nsAddrs, executeNamespace, hane])
        (Nat.lt_succ_of_lt ha)
      rw [he] at hfr
      simp only [he]
      cases r with
      | error m => simpa [hane] using hfr
      | ok raw => simpa [hane] using hfr
  · unfold _safe_eval_pandas
    cases hb : checkBlocked code with
    | error m => rfl
    | ok u =>
      cases u
      simp only [alloc]
      have hfr := hf (safeEvalGlobals ++ safeEvalLocals h.next)
        ⟨h.next + 1, fun i => if i = h.next then h.data a else h.data i⟩ a
        (by simp [nsAddrs, safeEvalGlobals, safeEvalLocals, hane])
        (Nat.lt_succ_of_lt ha)
      simpa [hane] using hfr

/-- Witness for C4: a concrete in-place-mutating evaluation behaviour
against the sample dataset leaves the stored dataset intact in both
evaluators. -/
theorem C4_dataset_unchanged_by_execution_witness :
    FramePreserving clobberEval ∧ 0 < sampleHeap.next ∧
      ((_execute clobberEval (.ok exprRevenueSum) sampleHeap 0).1.data 0 =
          sampleHeap.data 0 ∧
        (_safe_eval_pandas clobberEval "df['revenue'].sum()" sampleHeap 0).1.data 0 =
          sampleHeap.data 0) :=
  ⟨clobberEval_frame, Nat.zero_lt_one,
    C4_dataset_unchanged_by_execution clobberEval (.ok exprRevenueSum)
      "df['revenue'].sum()" sampleHeap 0 clobberEval_frame Nat.zero_lt_one⟩

/-! ## The claims about the orchestrator -/

/-- C6: when the validator rejects the model-returned expression,
`QueryAgent.query` returns the error response built by `_err`, with the
rejection reason in the error and answer fields, the offending
expression text in the pandas code field and a null result; the heap is
unchanged and the outcome does not depend on the host evaluation
behaviour, so the rejected expression is never evaluated. -/
theorem C6_rejected_expression_never_evaluated :
    ∀ (evalFn : EvalFn) (parse : String → Except String PyExpr) (plan : Plan)
      (h : Heap) (a : Nat) (m : String),
      orNoneStr plan.pandas_code ≠ "None" →
      validate_ast (parse (orNoneStr plan.pandas_code)) = .error m →
      query evalFn parse plan h a =
        ({ answer_summary := "Sorry, I couldn't answer that. Execution error: " ++ m,
           pandas_code := orNoneStr plan.pandas_code,
           result_type := "scalar",
           result_data := none,
           suggested_chart := "none",
           chart_x_col := none,
           chart_y_col := none,
           error := some ("Execution error: " ++ m) }, h) := by
  intro evalFn parse plan h a m hne hv
  simp only [query, _execute, hv, _err]
  rw [if_neg hne, ← String.append_assoc]
  rfl

/-- Witness for C6: the plan whose expression is the disallowed bare
name `x` yields the error response with the validator reason, for the
clobbering evaluation behaviour, which is never consulted. -/
theorem C6_rejected_expression_never_evaluated_witness :
    orNoneStr planNameX.pandas_code ≠ "None" ∧
      validate_ast (parseNameX (orNoneStr planNameX.pandas_code)) =
        .error (nameErrMsg "x") ∧
      query clobberEval parseNameX planNameX sampleHeap 0 =
        ({ answer_summary :=
             "Sorry, I couldn't answer that. Execution error: " ++ nameErrMsg "x",
           pandas_code := orNoneStr planNameX.pandas_code,
           result_type := "scalar",
           result_data := none,
           suggested_chart := "none",
           chart_x_col := none,
           chart_y_col := none,
           error := some ("Execution error: " ++ nameErrMsg "x") }, sampleHeap) :=
  ⟨by decide, rfl,
    C6_rejected_expression_never_evaluated clobberEval parseNameX planNameX
      sampleHeap 0 (nameErrMsg "x") (by decide) rfl⟩

/-- C8: a model response whose expression field equals the no-answer
sentinel short-circuits to a successful result: the model explanation
text as the answer summary, null result, null error, with no parse, no
validation and no evaluation (the outcome does not depend on the parse
or evaluation behaviour and the heap is unchanged). -/
theorem C8_sentinel_short_circuits :
    ∀ (evalFn : EvalFn) (parse : String → Except String PyExpr) (plan : Plan)
      (h : Heap) (a : Nat) (s : String),
      plan.pandas_code = some "None" →
      plan.answer_summary = some s →
      query evalFn parse plan h a =
        ({ answer_summary := s,
           pandas_code := "None",
           result_type := "scalar",
           result_data := none,
           suggested_chart := "none",
           chart_x_col := none,
           chart_y_col := none,
           error := none }, h) := by
  intro evalFn parse plan h a s hpc hans
  simp [query, orNoneStr, hpc, hans]

/-- Witness for C8: the sentinel plan short-circuits under the
clobbering evaluation behaviour. -/
theorem C8_sentinel_short_circuits_witness :
    planSentinel.pandas_code = some "None" ∧
      planSentinel.answer_summary = some "Cannot tell from this data." ∧
      query clobberEval parseNameX planSentinel sampleHeap 0 =
        ({ answer_summary := "Cannot tell from this data.",
           pandas_code := "None",
           result_type := "scalar",
           result_data := none,
           suggested_chart := "none",
           chart_x_col := none,
           chart_y_col := none,
           error := none }, sampleHeap) :=
  ⟨rfl, rfl,
    C8_sentinel_short_circuits clobberEval parseNameX planSentinel sampleHeap 0
      "Cannot tell from this data." rfl rfl⟩

/-- C10: a parsed model response whose expression field is absent, null
or the empty string is treated exactly like the no-answer sentinel:
success with null result and null error, no validation, no
evaluation. -/
theorem C10_missing_code_is_sentinel :
    ∀ (evalFn : EvalFn) (parse : String → Except String PyExpr) (plan : Plan)
      (h : Heap) (a : Nat),
      plan.pandas_code = none ∨ plan.pandas_code = some "" →
      query evalFn parse plan h a =
        ({ answer_summary := plan.answer_summary.getD "Cannot answer this question.",
           pandas_code := "None",
           result_type := "scalar",
           result_data := none,
           suggested_chart := "none",
           chart_x_col := none,
           chart_y_col := none,
           error := none }, h) := by
  intro evalFn parse plan h a hor
  rcases hor with h0 | h0 <;> simp [query, orNoneStr, h0]

/-- Witness for C10: the all-absent plan short-circuits with the
default explanation text. -/
theorem C10_missing_code_is_sentinel_witness :
    (planEmpty.pandas_code = none ∨ planEmpty.pandas_code = some "") ∧
      query clobberEval parseNameX planEmpty sampleHeap 0 =
        ({ answer_summary := planEmpty.answer_summary.getD "Cannot answer this question.",
           pandas_code := "None",
           result_type := "scalar",
           result_data := none,
           suggested_chart := "none",
           chart_x_col := none,
           chart_y_col := none,
           error := none }, sampleHeap) :=
  ⟨Or.inl rfl,
    C10_missing_code_is_sentinel clobberEval parseNameX planEmpty sampleHeap 0
      (Or.inl rfl)⟩

/-! ## The claim about the result normalizer -/

/-- A replaced cell serialises as the spec sends the marker to null. -/
theorem cellJ_nanToNone : ∀ c : Cell, cellJ (nanToNone c) = cellJNull c := by
  intro c
  cases c <;> rfl

/-- The source path replace-then-to_dict equals the spec shape for a
tabular result. -/
theorem toRecords_replaceNanDF :
    ∀ d : DataFrame, toRecords (replaceNanDF d) = specTableOfDF d := by
  intro d
  simp [toRecords, replaceNanDF, specTableOfDF, List.map_map, Function.comp_def,
    cellJ_nanToNone]

/-- The source path replace-then-reset_index-then-to_dict equals the
spec shape for an indexed-sequence result. -/
theorem toRecords_resetIndex_series :
    ∀ s : Series, toRecords (resetIndex (replaceNanSeries s)) = specTableOfSeries s := by
  intro s
  simp [toRecords, resetIndex, replaceNanSeries, specTableOfSeries,
    List.zip_map_right, List.map_map, Function.comp_def, cellJ_nanToNone]

/-- C9: the normalizer sends a tabular result to the ordered sequence
of row-mappings with missing markers as explicit null and kind table; a
series to the same tabular shape with the index materialized as a
column; numpy numeric and boolean scalars to native numbers and
booleans with kind scalar, floats rounded to 4 decimal digits; and a
plain list or tuple to a list with kind list. -/
theorem C9_serialise_shapes :
    ∀ (d : DataFrame) (s : Series) (i : Int) (q : ℚ) (b : Bool) (xs ys : List Cell),
      _serialise (.dataframe d) = (.jrecords (specTableOfDF d), "table") ∧
        _serialise (.series s) = (.jrecords (specTableOfSeries s), "table") ∧
        _serialise (.npInteger i) = (.jint i, "scalar") ∧
        _serialise (.npFloating q) = (.jnum (round4 q), "scalar") ∧
        _serialise (.npBool b) = (.jbool b, "scalar") ∧
        _serialise (.pyList xs) = (.jlist (xs.map cellJ), "list") ∧
        _serialise (.pyTuple ys) = (.jlist (ys.map cellJ), "list") := by
  intro d s i q b xs ys
  refine ⟨?_, ?_, rfl, rfl, rfl, rfl, rfl⟩
  · simp [_serialise, toRecords_replaceNanDF]
  · simp [_serialise, toRecords_resetIndex_series]

end GradientFisherman
